import Mathlib

/-!
# Verification of the WHOIS referral proxy (`api/whois.js`)

A shallow embedding of the WHOIS referral-resolution endpoint.  JavaScript
strings are modelled as `List Char`; the TCP socket client
(`queryWhoisServer`) is modelled as a state machine over an explicit trace of
socket/timer events; the request handler (`module.exports`) is modelled as a
pure function over a network oracle that maps each issued WHOIS query
`(server, queryText)` to either the accumulated response text or an error
message.  The embedding follows the most evolved variant of the endpoint
(`src/unnamed/part_000`), whose line numbers the statements below cite.
-/

set_option autoImplicit false

namespace WhoisProxy

/-! ## JavaScript string primitives -/

/-- ASCII lower-casing of one character (the fragment of JS `toLowerCase`
exercised by the hostnames and suffixes this endpoint compares). -/
def asciiLower (c : Char) : Char :=
  if 'A' ≤ c ∧ c ≤ 'Z' then Char.ofNat (c.toNat + 32) else c

/-- JS `String.prototype.toLowerCase` on the ASCII fragment. -/
def lowerStr (s : List Char) : List Char := s.map asciiLower

/-- The whitespace characters recognised by JS `\s` / `trim` (ASCII part plus
no-break space; the exotic Unicode space points never appear in this code's
strings). -/
def isJsSpace (c : Char) : Bool :=
  c = ' ' || c = '\t' || c = '\n' || c = '\r' ||
  c = Char.ofNat 11 || c = Char.ofNat 12 || c = Char.ofNat 160

/-- JS `String.prototype.trim`: strip whitespace from both ends. -/
def jsTrim (s : List Char) : List Char :=
  ((s.dropWhile isJsSpace).reverse.dropWhile isJsSpace).reverse

/-- Digits as converted by JS template interpolation of a number (only used
for the fixed port 43). -/
def natToChars (n : Nat) : List Char := (toString n).data

/-! ## Constants (part_000 lines 4-17) -/

def IANA_WHOIS_SERVER : List Char := "whois.iana.org".data

def WHOIS_PORT : Nat := 43

def QUERY_TIMEOUT : Nat := 8000

/-- The `RIR_SERVERS` object of part_000 (lines 9-17), as the ordered
association list JS iterates over with `for (const rirKey in RIR_SERVERS)`. -/
def RIR_SERVERS : List (List Char × List Char) :=
  [("ARIN".data, "whois.arin.net".data),
   ("RIPE".data, "whois.ripe.net".data),
   ("APNIC".data, "whois.apnic.net".data),
   ("LACNIC".data, "whois.lacnic.net".data),
   ("AFRINIC".data, "whois.afrinic.net".data),
   ("IANA".data, "whois.iana.org".data),
   ("whois.verisign-grs.com".data, "whois.verisign-grs.com".data)]

/-! ## WhoisSocketClient: `queryWhoisServer` (part_000 lines 20-67)

The promise-returning socket client is modelled as a state machine.  The
events are the callbacks the Node runtime may deliver: the `connect`
callback, `data` chunks, the `setTimeout` timer firing, and the socket's
`end` / `error` events.  `clearTimeout` is modelled by the `timerCleared`
flag: a `timerFire` event delivered after the timer was cleared has no
effect, exactly as a cleared JS timer never runs.  Settling the promise is
modelled by the `settled` field; per JS promise semantics a `resolve` or
`reject` after the first one is ignored (`settle`). -/

/-- Events deliverable to one `queryWhoisServer` invocation. -/
inductive SocketEvent where
  /-- the `client.connect` success callback ran (`connected = true`) -/
  | connect : SocketEvent
  /-- a `data` chunk arrived -/
  | dataChunk (chunk : List Char) : SocketEvent
  /-- the 8000 ms `setTimeout` callback ran -/
  | timerFire : SocketEvent
  /-- the socket's `end` event -/
  | socketEnd : SocketEvent
  /-- the socket's `error` event with `err.message` -/
  | socketError (msg : List Char) : SocketEvent
deriving DecidableEq

/-- A settled promise value: `resolve` with response text or `reject` with an
error message. -/
inductive Outcome where
  | resolved (text : List Char) : Outcome
  | rejected (msg : List Char) : Outcome
deriving DecidableEq

/-- The mutable state captured by the closure of `queryWhoisServer`. -/
structure ClientState where
  whoisData : List Char
  connected : Bool
  operationTimedOut : Bool
  /-- `clearTimeout(timeoutId)` has run -/
  timerCleared : Bool
  /-- the promise's settled value, if any -/
  settled : Option Outcome
deriving DecidableEq

def initClientState : ClientState :=
  { whoisData := [], connected := false, operationTimedOut := false,
    timerCleared := false, settled := none }

/-- JS promise semantics: only the first `resolve`/`reject` takes effect. -/
def settle (st : ClientState) (o : Outcome) : ClientState :=
  match st.settled with
  | some _ => st
  | none => { st with settled := some o }

/-- The timeout rejection message (part_000 line 31), with
`serverFriendlyName || server` passed as `name`. -/
def timeoutMsg (name : List Char) (port : Nat) (queryText : List Char) : List Char :=
  "Connection/data timeout to ".data ++ name ++ ":".data ++ natToChars port ++
  " for query \"".data ++ queryText ++ "\"".data

/-- The truncation notice appended on a post-connection timeout
(part_000 line 36). -/
def truncationNotice (name : List Char) : List Char :=
  "\n\n--- Query to ".data ++ name ++
  " timed out. Partial data above may be incomplete. ---\n".data

/-- One event-handler step of `queryWhoisServer` (part_000 lines 28-66). -/
def clientStep (name : List Char) (port : Nat) (queryText : List Char)
    (st : ClientState) : SocketEvent → ClientState
  | .connect => { st with connected := true }
  | .dataChunk chunk => { st with whoisData := st.whoisData ++ chunk }
  | .timerFire =>
      if st.timerCleared then st
      else
        let st' := { st with operationTimedOut := true }
        if st'.connected then
          settle st' (.resolved (st'.whoisData ++ truncationNotice name))
        else
          settle st' (.rejected (timeoutMsg name port queryText))
  | .socketEnd =>
      let st' := { st with timerCleared := true }
      if st'.operationTimedOut then st' else settle st' (.resolved st'.whoisData)
  | .socketError msg =>
      let st' := { st with timerCleared := true }
      if st'.operationTimedOut then st' else settle st' (.rejected msg)

/-- Run one `queryWhoisServer` invocation over a trace of events. -/
def runClient (name : List Char) (port : Nat) (queryText : List Char)
    (trace : List SocketEvent) : ClientState :=
  trace.foldl (clientStep name port queryText) initClientState

/-- Events whose handler clears or is the timer, i.e. the events after which
`queryWhoisServer` is guaranteed to have settled. -/
def isTerminalEvent : SocketEvent → Bool
  | .timerFire => true
  | .socketEnd => true
  | .socketError _ => true
  | _ => false

/-! ## ReferralParser: `parseReferral` (part_000 lines 70-95) -/

/-- The character class `[a-zA-Z0-9.-]` of the referral regexes. -/
def isHostChar (c : Char) : Bool :=
  c.isAlpha || c.isDigit || c = '.' || c = '-'

/-- First match of the regex `/key\s*([a-zA-Z0-9.-]+)/i` in `text`, returning
the capture group: scan left to right for a case-insensitive occurrence of
`key` followed by optional whitespace and at least one hostname character
(`key` is the lowercase literal `whois:` or `refer:`). -/
def findCapture (key : List Char) : List Char → Option (List Char)
  | [] => none
  | c :: rest =>
      if lowerStr ((c :: rest).take key.length) = key then
        let cap := (((c :: rest).drop key.length).dropWhile isJsSpace).takeWhile isHostChar
        if cap.isEmpty then findCapture key rest else some cap
      else findCapture key rest

/-- A parsed referral `{ name, server }`. -/
structure Referral where
  name : List Char
  server : List Char
deriving DecidableEq

/-- The `for (const rirKey in RIR_SERVERS)` lookup: first directory entry
whose server hostname equals the referred host case-insensitively
(part_000 lines 82-86). -/
def lookupRir (host : List Char) : Option Referral :=
  (RIR_SERVERS.find? (fun p => lowerStr p.2 = host)).map (fun p => ⟨p.1, p.2⟩)

/-- Processing of one pattern of the `patterns` array: if it has a match,
return the directory hit, or the unknown-but-actionable referral when the
host differs from the IANA server; `none` falls through to the next pattern
(part_000 lines 77-93). -/
def tryPattern (key : List Char) (ianaData : List Char) : Option Referral :=
  match findCapture key ianaData with
  | none => none
  | some cap =>
      let referredServerHost := lowerStr (jsTrim cap)
      match lookupRir referredServerHost with
      | some r => some r
      | none =>
          if referredServerHost ≠ lowerStr IANA_WHOIS_SERVER then
            some ⟨referredServerHost, referredServerHost⟩
          else none

/-- `parseReferral` (part_000 lines 71-95): empty input is falsy; try the
`whois:` pattern, then the `refer:` pattern. -/
def parseReferral (ianaData : List Char) : Option Referral :=
  if ianaData = [] then none
  else
    match tryPattern "whois:".data ianaData with
    | some r => some r
    | none => tryPattern "refer:".data ianaData

/-! ## IPv4-literal classification (part_000 line 117) -/

/-- Split on `'.'` (each `'.'` is a separator; adjacent separators yield
empty groups), mirroring how the anchored regex decomposes the input. -/
def splitOnDot : List Char → List (List Char)
  | [] => [[]]
  | c :: rest =>
      let r := splitOnDot rest
      if c = '.' then [] :: r
      else
        match r with
        | h :: t => (c :: h) :: t
        | [] => [[c]]

/-- One group of the dotted quad: 1 to 3 ASCII digits. -/
def isOctet (s : List Char) : Bool :=
  !s.isEmpty && s.length ≤ 3 && s.all Char.isDigit

/-- The test `/^(?:[0-9]{1,3}\.){3}[0-9]{1,3}$/.test(query)`: exactly four
dot-separated groups of 1-3 digits (digits and `'.'` are disjoint, so the
anchored regex accepts exactly these strings). -/
def isIpAddress (query : List Char) : Bool :=
  match splitOnDot query with
  | [a, b, c, d] => isOctet a && isOctet b && isOctet c && isOctet d
  | _ => false

/-! ## Report sections built by the handler (part_000 lines 98-194)

Each labelled block is the exact text the handler appends to `finalReport`,
with the template interpolations spelled out. -/

/-- Lines 110-111. -/
def reportHeader (query : List Char) : List Char :=
  "WHOIS Lookup for: ".data ++ query ++ "\n".data ++
  "-------------------------------------\n".data

/-- Lines 122-124: the IANA block; an empty (falsy) response is replaced by
the placeholder. -/
def ianaResponseBlock (ianaData : List Char) : List Char :=
  "\n--- IANA Response (".data ++ IANA_WHOIS_SERVER ++ ") ---\n".data ++
  (if ianaData = [] then "No data or empty response from IANA.".data else ianaData) ++
  "\n-----------------------------------------\n\n".data

/-- Line 133. -/
def ianaErrorBlock (msg : List Char) : List Char :=
  "\n--- Error Querying IANA ---\n".data ++ msg ++
  "\n---------------------------\n\n".data

/-- Line 136. -/
def skipIanaNote (query : List Char) : List Char :=
  "\n--- Query '".data ++ query ++
  "' is not an IPv4 address. Skipping IANA pre-lookup for IP referral. ---\n\n".data

/-- Line 149. -/
def authoritativeNote (query : List Char) : List Char :=
  "\n--- IANA response above is considered authoritative for IP '".data ++ query ++
  "'. No further RIR query needed based on this referral. ---\n".data

/-- Line 163, with the friendly name `RIPE NCC (Default for non-IP)`
interpolated. -/
def nonIpFallbackNote (query : List Char) : List Char :=
  "\n--- Attempting query for non-IP '".data ++ query ++
  "' against RIPE NCC (Default for non-IP). Full domain WHOIS may require different servers. ---\n\n".data

/-- Line 170, with the friendly name `RIPE NCC (Default/Fallback)`
interpolated. -/
def ipFallbackNote (query : List Char) : List Char :=
  "\n--- No specific RIR referral from IANA for IP '".data ++ query ++
  "'. Attempting query against RIPE NCC (Default/Fallback). ---\n\n".data

/-- Lines 177-179: the next-hop block; an empty (falsy) response is replaced
by the placeholder naming the hop. -/
def rirResponseBlock (name server rirData : List Char) : List Char :=
  "\n--- Response from ".data ++ name ++ " (".data ++ server ++ ") ---\n".data ++
  (if rirData = [] then
    "No data or empty response from ".data ++ name ++ ".".data
   else rirData) ++
  "\n----------------------------------------------------------------------\n".data

/-- Line 182. -/
def rirErrorBlock (name server msg : List Char) : List Char :=
  "\n--- Error Querying ".data ++ name ++ " (".data ++ server ++ ") ---\n".data ++
  msg ++ "\n--------------------------------------------------------------------\n".data

/-! ## Next-hop selection (part_000 lines 139-171) -/

/-- The `if / else if / else if` chain choosing `serverToQueryNext` and
`serverFriendlyNameToQueryNext` and appending the associated note.  Returns
`(hop?, appendedNote)` where `hop? = some (server, friendlyName)` when a
second query will be issued.  `hasReferralObj` is the truthiness of
`authoritativeRirInfo` alone, distinguishing the `isIpAddress &&
!authoritativeRirInfo` guard of line 165. -/
def selectNextHopChain (query : List Char) (isIpAddr : Bool) (hasReferralObj : Bool) :
    Option (List Char × List Char) × List Char :=
  if !isIpAddr then
    if ".com".data.isSuffixOf (lowerStr query) || ".net".data.isSuffixOf (lowerStr query) then
      (some ("whois.verisign-grs.com".data, "Verisign (.com/.net)".data), [])
    else
      (some ("whois.ripe.net".data, "RIPE NCC (Default for non-IP)".data),
       nonIpFallbackNote query)
  else if isIpAddr && !hasReferralObj then
    (some ("whois.ripe.net".data, "RIPE NCC (Default/Fallback)".data),
     ipFallbackNote query)
  else (none, [])

/-- Full selection, starting with the `authoritativeRirInfo &&
authoritativeRirInfo.server` guard of line 142 and the self-referral check of
line 144. -/
def selectNextHop (query : List Char) (isIpAddr : Bool) (referral : Option Referral) :
    Option (List Char × List Char) × List Char :=
  match referral with
  | some info =>
      if info.server ≠ [] then
        if lowerStr info.server ≠ lowerStr IANA_WHOIS_SERVER then
          (some (info.server, info.name), [])
        else (none, authoritativeNote query)
      else selectNextHopChain query isIpAddr true
  | none => selectNextHopChain query isIpAddr false

/-! ## The request handler `module.exports` (part_000 lines 98-194) -/

/-- The observable result of one request, instrumented with the pre-`trim`
report, the list of WHOIS queries issued (in order, as `(server, queryText)`
pairs), and the parsed referral. -/
structure HandlerResult where
  status : Nat
  body : List Char
  report : List Char
  queries : List (List Char × List Char)
  referral : Option Referral
deriving DecidableEq

/-- The network environment: the settled outcome `queryWhoisServer` would
deliver for a query `(server, queryText)` — `Except.error` with the
rejection's message (connect error or pre-connection timeout), `Except.ok`
with the response text (including the partial-on-timeout case, where the
truncation notice is already appended). -/
def NetOracle : Type := List Char → List Char → Except (List Char) (List Char)

/-- The IANA hop (part_000 lines 118-137): for an IPv4 literal, query IANA
and append the labelled block (or the error block on failure, proceeding with
`referral = none`); otherwise append the skip notice.  Returns the report so
far, the parsed referral, and the queries issued. -/
def ianaPhase (query : List Char) (net : NetOracle) (isIpAddr : Bool) :
    List Char × Option Referral × List (List Char × List Char) :=
  if isIpAddr then
    match net IANA_WHOIS_SERVER query with
    | .ok ianaData =>
        (reportHeader query ++ ianaResponseBlock ianaData, parseReferral ianaData,
         [(IANA_WHOIS_SERVER, query)])
    | .error msg =>
        (reportHeader query ++ ianaErrorBlock msg, none, [(IANA_WHOIS_SERVER, query)])
  else (reportHeader query ++ skipIanaNote query, none, [])

/-- The second hop and the response (part_000 lines 173-187): if a next hop
was selected, query it and append its labelled block (success data, or the
error block on failure); then `res.status(200).send(finalReport.trim())`. -/
def secondHopPhase (query : List Char) (net : NetOracle) (report2 : List Char)
    (queries1 : List (List Char × List Char)) (referral : Option Referral)
    (hop : Option (List Char × List Char)) : HandlerResult :=
  match hop with
  | none =>
      { status := 200, body := jsTrim report2, report := report2,
        queries := queries1, referral := referral }
  | some (server, name) =>
      match net server query with
      | .ok rirData =>
          { status := 200, body := jsTrim (report2 ++ rirResponseBlock name server rirData),
            report := report2 ++ rirResponseBlock name server rirData,
            queries := queries1 ++ [(server, query)], referral := referral }
      | .error msg =>
          { status := 200, body := jsTrim (report2 ++ rirErrorBlock name server msg),
            report := report2 ++ rirErrorBlock name server msg,
            queries := queries1 ++ [(server, query)], referral := referral }

/-- The `try` body of part_000 lines 113-187: IANA hop, next-hop selection
(appending its note to the report), second hop, 200 response. -/
def mainFlow (query : List Char) (net : NetOracle) : HandlerResult :=
  secondHopPhase query net
    ((ianaPhase query net (isIpAddress query)).1 ++
      (selectNextHop query (isIpAddress query) (ianaPhase query net (isIpAddress query)).2.1).2)
    (ianaPhase query net (isIpAddress query)).2.2
    (ianaPhase query net (isIpAddress query)).2.1
    (selectNextHop query (isIpAddress query) (ianaPhase query net (isIpAddress query)).2.1).1

/-- The handler of part_000 lines 98-194 for a request with the given method
and `req.query.q`, run against a network oracle.  CORS headers and console
logging are not modelled; `res.status(...).send(...)` is the returned
`status`/`body`. -/
def whoisHandler (method : List Char) (q : Option (List Char)) (net : NetOracle) :
    HandlerResult :=
  if method = "OPTIONS".data then
    { status := 200, body := [], report := [], queries := [], referral := none }
  else
    match q with
    | none =>
        { status := 400, body := "Query parameter \"q\" is required.".data,
          report := [], queries := [], referral := none }
    | some query =>
        if query = [] then
          { status := 400, body := "Query parameter \"q\" is required.".data,
            report := [], queries := [], referral := none }
        else mainFlow query net

/-- The `catch` block of part_000 lines 189-194: an unexpected exception with
message `msg`, thrown while `finalReport` held the partial report, produces a
500 response whose body is the trimmed partial report, the appended error
block, and the closing sentence. -/
def unexpectedErrorBlock (msg : List Char) : List Char :=
  "\n--- Unexpected Server Error ---\nAn internal error occurred: ".data ++ msg ++
  "\n--------------------------------\n".data

/-- `res.status(500).send(finalReport.trim() + "\n\nInternal server error processing WHOIS request.")`. -/
def unexpectedErrorResponse (finalReport msg : List Char) : Nat × List Char :=
  (500,
   jsTrim (finalReport ++ unexpectedErrorBlock msg) ++
   "\n\nInternal server error processing WHOIS request.".data)

/-! ## Lemmas about the socket client -/

theorem settle_settled_of_settled (st : ClientState) (o o' : Outcome)
    (h : st.settled = some o) : (settle st o').settled = some o := by
  simp [settle, h]

theorem settle_isSome (st : ClientState) (o : Outcome) :
    ((settle st o).settled).isSome = true := by
  unfold settle
  cases h : st.settled <;> simp [h]

theorem clientStep_settled_of_settled (name : List Char) (port : Nat)
    (queryText : List Char) (st : ClientState) (e : SocketEvent) (o : Outcome)
    (h : st.settled = some o) :
    (clientStep name port queryText st e).settled = some o := by
  cases e <;> simp only [clientStep]
  · exact h
  · exact h
  · split
    · exact h
    · split <;> exact settle_settled_of_settled _ _ _ h
  · split
    · exact h
    · exact settle_settled_of_settled _ _ _ h
  · split
    · exact h
    · exact settle_settled_of_settled _ _ _ h

theorem foldl_clientStep_settled_of_settled (name : List Char) (port : Nat)
    (queryText : List Char) (post : List SocketEvent) :
    ∀ (st : ClientState) (o : Outcome), st.settled = some o →
      (post.foldl (clientStep name port queryText) st).settled = some o := by
  induction post with
  | nil => intro st o h; exact h
  | cons e tr ih =>
      intro st o h
      exact ih _ _ (clientStep_settled_of_settled name port queryText st e o h)

/-- The invariant tying the two manual flags to settlement: once the timer
has fired (`operationTimedOut`) or been cleared (`timerCleared`), the promise
has settled. -/
def clientInv (st : ClientState) : Prop :=
  (st.operationTimedOut = true → (st.settled).isSome = true) ∧
  (st.timerCleared = true → (st.settled).isSome = true)

theorem clientInv_init : clientInv initClientState := by
  constructor <;> intro h <;> simp [initClientState] at h

theorem clientStep_clientInv (name : List Char) (port : Nat) (queryText : List Char)
    (st : ClientState) (e : SocketEvent) (h : clientInv st) :
    clientInv (clientStep name port queryText st e) := by
  obtain ⟨h1, h2⟩ := h
  cases e <;> simp only [clientStep]
  · exact ⟨h1, h2⟩
  · exact ⟨h1, h2⟩
  · split
    · exact ⟨h1, h2⟩
    · split <;> exact ⟨fun _ => settle_isSome _ _, fun _ => settle_isSome _ _⟩
  · split
    · next hto => exact ⟨fun _ => h1 hto, fun _ => h1 hto⟩
    · exact ⟨fun _ => settle_isSome _ _, fun _ => settle_isSome _ _⟩
  · split
    · next hto => exact ⟨fun _ => h1 hto, fun _ => h1 hto⟩
    · exact ⟨fun _ => settle_isSome _ _, fun _ => settle_isSome _ _⟩

theorem clientStep_terminal_isSome (name : List Char) (port : Nat)
    (queryText : List Char) (st : ClientState) (e : SocketEvent)
    (h : clientInv st) (ht : isTerminalEvent e = true) :
    ((clientStep name port queryText st e).settled).isSome = true := by
  obtain ⟨h1, h2⟩ := h
  cases e
  case connect => simp [isTerminalEvent] at ht
  case dataChunk => simp [isTerminalEvent] at ht
  case timerFire =>
    simp only [clientStep]
    split
    · next hcl => exact h2 hcl
    · split <;> exact settle_isSome _ _
  case socketEnd =>
    simp only [clientStep]
    split
    · next hto => exact h1 hto
    · exact settle_isSome _ _
  case socketError =>
    simp only [clientStep]
    split
    · next hto => exact h1 hto
    · exact settle_isSome _ _

theorem foldl_clientStep_isSome (name : List Char) (port : Nat)
    (queryText : List Char) (post : List SocketEvent) :
    ∀ (st : ClientState), ((st.settled).isSome = true) →
      (((post.foldl (clientStep name port queryText) st).settled)).isSome = true := by
  induction post with
  | nil => intro st h; exact h
  | cons e tr ih =>
      intro st h
      obtain ⟨o, ho⟩ := Option.isSome_iff_exists.mp h
      exact ih _ (by
        rw [clientStep_settled_of_settled name port queryText st e o ho]; rfl)

theorem foldl_clientStep_terminal (name : List Char) (port : Nat)
    (queryText : List Char) (trace : List SocketEvent) :
    ∀ (st : ClientState), clientInv st →
      (∃ e ∈ trace, isTerminalEvent e = true) →
      (((trace.foldl (clientStep name port queryText) st).settled)).isSome = true := by
  induction trace with
  | nil => intro st _ h; simp at h
  | cons e tr ih =>
      intro st hinv hex
      by_cases hterm : isTerminalEvent e = true
      · exact foldl_clientStep_isSome name port queryText tr _
          (clientStep_terminal_isSome name port queryText st e hinv hterm)
      · refine ih _ (clientStep_clientInv name port queryText st e hinv) ?_
        obtain ⟨e', he', ht'⟩ := hex
        rcases List.mem_cons.mp he' with rfl | hmem
        · exact absurd ht' hterm
        · exact ⟨e', hmem, ht'⟩

/-- **C1.** Every `queryWhoisServer` promise settles exactly once: the
settled value is permanent — once a prefix of the event trace has settled the
promise (in particular, once the timeout has fired and settled it), any
further events (`end`, `error`, anything) neither change the settled value
nor settle again — and every trace containing a timer, `end`, or `error`
event leaves the promise settled, so it is never left pending forever. -/
theorem queryWhoisServer_single_settlement (name : List Char) (port : Nat)
    (queryText : List Char) :
    (∀ (pre post : List SocketEvent) (o : Outcome),
        (runClient name port queryText pre).settled = some o →
        (runClient name port queryText (pre ++ post)).settled = some o) ∧
    (∀ trace : List SocketEvent, (∃ e ∈ trace, isTerminalEvent e = true) →
        ((runClient name port queryText trace).settled).isSome = true) := by
  constructor
  · intro pre post o h
    unfold runClient at h ⊢
    rw [List.foldl_append]
    exact foldl_clientStep_settled_of_settled name port queryText post _ o h
  · intro trace hex
    exact foldl_clientStep_terminal name port queryText trace initClientState
      clientInv_init hex

/-- Witness for C1: after `connect` then the timer fires, the promise is
settled with the partial result, and the late `end` and `error` events leave
that value untouched; the trace `[connect, timerFire]` is settled. -/
theorem queryWhoisServer_single_settlement_witness :
    (runClient "IANA".data 43 "8.8.8.8".data
        ([SocketEvent.connect, SocketEvent.timerFire] ++
         [SocketEvent.socketEnd, SocketEvent.socketError "late".data])).settled
      = some (Outcome.resolved (truncationNotice "IANA".data)) ∧
    ((runClient "IANA".data 43 "8.8.8.8".data
        [SocketEvent.connect, SocketEvent.timerFire]).settled).isSome = true :=
  ⟨(queryWhoisServer_single_settlement "IANA".data 43 "8.8.8.8".data).1
      [SocketEvent.connect, SocketEvent.timerFire]
      [SocketEvent.socketEnd, SocketEvent.socketError "late".data]
      (Outcome.resolved (truncationNotice "IANA".data)) (by decide),
   (queryWhoisServer_single_settlement "IANA".data 43 "8.8.8.8".data).2
      [SocketEvent.connect, SocketEvent.timerFire]
      ⟨SocketEvent.timerFire, by decide, by decide⟩⟩

/-- **C2.** The 8000 ms timer firing on a not-yet-settled, not-yet-cleared
client rejects with the timeout message exactly when no connection was
established; if the connection was established (and the peer has not yet
closed the stream — the `end` handler would have cleared the timer), it
resolves successfully with the accumulated bytes plus the appended
human-readable truncation notice, and in particular does not reject. -/
theorem queryWhoisServer_timeout_behavior (name : List Char) (port : Nat)
    (queryText : List Char) (st : ClientState)
    (hn : st.settled = none) (hc : st.timerCleared = false) :
    QUERY_TIMEOUT = 8000 ∧
    (st.connected = false →
      (clientStep name port queryText st .timerFire).settled
        = some (Outcome.rejected (timeoutMsg name port queryText))) ∧
    (st.connected = true →
      (clientStep name port queryText st .timerFire).settled
        = some (Outcome.resolved (st.whoisData ++ truncationNotice name))) := by
  refine ⟨rfl, ?_, ?_⟩ <;> intro hconn <;>
    simp [clientStep, hc, hconn, settle, hn]

/-- Witness for C2: a connected client with accumulated data `"AB"` resolves
with `"AB"` plus the truncation notice when the timer fires. -/
theorem queryWhoisServer_timeout_behavior_witness :
    (clientStep "IANA".data 43 "8.8.8.8".data
        { initClientState with connected := true, whoisData := "AB".data }
        .timerFire).settled
      = some (Outcome.resolved ("AB".data ++ truncationNotice "IANA".data)) :=
  (queryWhoisServer_timeout_behavior "IANA".data 43 "8.8.8.8".data
      { initClientState with connected := true, whoisData := "AB".data }
      rfl rfl).2.2 rfl

/-! ## Lemmas about the handler -/

theorem whoisHandler_get (query : List Char) (net : NetOracle) (hq : query ≠ []) :
    whoisHandler "GET".data (some query) net = mainFlow query net := by
  unfold whoisHandler
  rw [if_neg (by decide)]
  exact if_neg hq

theorem ianaPhase_ip_ok (query d : List Char) (net : NetOracle)
    (h : net IANA_WHOIS_SERVER query = .ok d) :
    ianaPhase query net true =
      (reportHeader query ++ ianaResponseBlock d, parseReferral d,
       [(IANA_WHOIS_SERVER, query)]) := by
  simp [ianaPhase, h]

theorem ianaPhase_ip_error (query msg : List Char) (net : NetOracle)
    (h : net IANA_WHOIS_SERVER query = .error msg) :
    ianaPhase query net true =
      (reportHeader query ++ ianaErrorBlock msg, none, [(IANA_WHOIS_SERVER, query)]) := by
  simp [ianaPhase, h]

theorem ianaPhase_nonIp (query : List Char) (net : NetOracle) :
    ianaPhase query net false =
      (reportHeader query ++ skipIanaNote query, none, []) := by
  simp [ianaPhase]

theorem secondHopPhase_status_body (query : List Char) (net : NetOracle)
    (report2 : List Char) (queries1 : List (List Char × List Char))
    (referral : Option Referral) (hop : Option (List Char × List Char)) :
    (secondHopPhase query net report2 queries1 referral hop).status = 200 ∧
    (secondHopPhase query net report2 queries1 referral hop).body
      = jsTrim (secondHopPhase query net report2 queries1 referral hop).report := by
  rcases hop with _ | ⟨server, name⟩
  · exact ⟨rfl, rfl⟩
  · rcases h : net server query with msg | d <;> simp [secondHopPhase, h]

theorem mainFlow_status_body (query : List Char) (net : NetOracle) :
    (mainFlow query net).status = 200 ∧
    (mainFlow query net).body = jsTrim (mainFlow query net).report :=
  secondHopPhase_status_body query net _ _ _ _

theorem secondHopPhase_report_extends (query : List Char) (net : NetOracle)
    (report2 : List Char) (queries1 : List (List Char × List Char))
    (referral : Option Referral) (hop : Option (List Char × List Char)) :
    ∃ tail, (secondHopPhase query net report2 queries1 referral hop).report
      = report2 ++ tail := by
  rcases hop with _ | ⟨server, name⟩
  · exact ⟨[], by simp [secondHopPhase]⟩
  · rcases h : net server query with msg | d
    · exact ⟨rirErrorBlock name server msg, by simp [secondHopPhase, h]⟩
    · exact ⟨rirResponseBlock name server d, by simp [secondHopPhase, h]⟩

theorem secondHopPhase_referral (query : List Char) (net : NetOracle)
    (report2 : List Char) (queries1 : List (List Char × List Char))
    (referral : Option Referral) (hop : Option (List Char × List Char)) :
    (secondHopPhase query net report2 queries1 referral hop).referral = referral := by
  rcases hop with _ | ⟨server, name⟩
  · rfl
  · rcases h : net server query with msg | d <;> simp [secondHopPhase, h]

theorem secondHopPhase_queries (query : List Char) (net : NetOracle)
    (report2 : List Char) (queries1 : List (List Char × List Char))
    (referral : Option Referral) (hop : Option (List Char × List Char)) :
    (secondHopPhase query net report2 queries1 referral hop).queries
      = queries1 ++ (match hop with | none => [] | some (server, _) => [(server, query)]) := by
  rcases hop with _ | ⟨server, name⟩
  · simp [secondHopPhase]
  · rcases h : net server query with msg | d <;> simp [secondHopPhase, h]

theorem secondHopPhase_report_of_error (query : List Char) (net : NetOracle)
    (report2 : List Char) (queries1 : List (List Char × List Char))
    (referral : Option Referral) (server name msg : List Char)
    (h : net server query = .error msg) :
    (secondHopPhase query net report2 queries1 referral (some (server, name))).report
      = report2 ++ rirErrorBlock name server msg := by
  simp [secondHopPhase, h]

theorem secondHopPhase_report_of_ok (query : List Char) (net : NetOracle)
    (report2 : List Char) (queries1 : List (List Char × List Char))
    (referral : Option Referral) (server name d : List Char)
    (h : net server query = .ok d) :
    (secondHopPhase query net report2 queries1 referral (some (server, name))).report
      = report2 ++ rirResponseBlock name server d := by
  simp [secondHopPhase, h]

/-- **C3.** For every query and any network behaviour, the handler responds
with status 200 and the trimmed assembled report; a failure of the IANA hop
is rendered as the labelled IANA error block containing the failure message
inside the report, and a failure of the selected second hop is rendered as
its labelled error block containing the failure message — the failure never
escapes the hop boundary. -/
theorem handler_hop_failures_caught (query : List Char) (net : NetOracle)
    (hq : query ≠ []) :
    (whoisHandler "GET".data (some query) net).status = 200 ∧
    (whoisHandler "GET".data (some query) net).body
      = jsTrim (whoisHandler "GET".data (some query) net).report ∧
    (∀ msg, isIpAddress query = true → net IANA_WHOIS_SERVER query = .error msg →
      ianaErrorBlock msg <:+: (whoisHandler "GET".data (some query) net).report) ∧
    (∀ server name msg,
      (selectNextHop query (isIpAddress query)
        (whoisHandler "GET".data (some query) net).referral).1 = some (server, name) →
      net server query = .error msg →
      rirErrorBlock name server msg <:+: (whoisHandler "GET".data (some query) net).report) := by
  rw [whoisHandler_get query net hq]
  refine ⟨(mainFlow_status_body query net).1, (mainFlow_status_body query net).2, ?_, ?_⟩
  · intro msg hip herr
    unfold mainFlow
    rw [hip, ianaPhase_ip_error query msg net herr]
    obtain ⟨tail, htail⟩ := secondHopPhase_report_extends query net
      (reportHeader query ++ ianaErrorBlock msg ++
        (selectNextHop query true none).2) [(IANA_WHOIS_SERVER, query)] none
      (selectNextHop query true none).1
    rw [htail]
    exact ⟨reportHeader query, (selectNextHop query true none).2 ++ tail,
      by simp [List.append_assoc]⟩
  · intro server name msg hsel herr
    unfold mainFlow
    unfold mainFlow at hsel
    rw [secondHopPhase_referral] at hsel
    rw [hsel, secondHopPhase_report_of_error query net _ _ _ server name msg herr]
    exact ⟨(ianaPhase query net (isIpAddress query)).1 ++
      (selectNextHop query (isIpAddress query)
        (ianaPhase query net (isIpAddress query)).2.1).2, [],
      by simp⟩

/-- Witness for C3: a query whose two hops (IANA, then the RIPE fallback)
both fail with connection errors still yields a 200 whose report carries both
error blocks. -/
theorem handler_hop_failures_caught_witness :
    (whoisHandler "GET".data (some "10.0.0.1".data)
        (fun _ _ => Except.error "getaddrinfo ENOTFOUND".data)).status = 200 ∧
    ianaErrorBlock "getaddrinfo ENOTFOUND".data <:+:
      (whoisHandler "GET".data (some "10.0.0.1".data)
        (fun _ _ => Except.error "getaddrinfo ENOTFOUND".data)).report ∧
    rirErrorBlock "RIPE NCC (Default/Fallback)".data "whois.ripe.net".data
        "getaddrinfo ENOTFOUND".data <:+:
      (whoisHandler "GET".data (some "10.0.0.1".data)
        (fun _ _ => Except.error "getaddrinfo ENOTFOUND".data)).report :=
  ⟨(handler_hop_failures_caught "10.0.0.1".data
      (fun _ _ => Except.error "getaddrinfo ENOTFOUND".data) (by decide)).1,
   (handler_hop_failures_caught "10.0.0.1".data
      (fun _ _ => Except.error "getaddrinfo ENOTFOUND".data) (by decide)).2.2.1
      "getaddrinfo ENOTFOUND".data (by decide) rfl,
   (handler_hop_failures_caught "10.0.0.1".data
      (fun _ _ => Except.error "getaddrinfo ENOTFOUND".data) (by decide)).2.2.2
      "whois.ripe.net".data "RIPE NCC (Default/Fallback)".data
      "getaddrinfo ENOTFOUND".data (by decide) rfl⟩

theorem mainFlow_eq (query : List Char) (net : NetOracle) (rep : List Char)
    (ref : Option Referral) (qs : List (List Char × List Char))
    (h : ianaPhase query net (isIpAddress query) = (rep, ref, qs)) :
    mainFlow query net
      = secondHopPhase query net
          (rep ++ (selectNextHop query (isIpAddress query) ref).2) qs ref
          (selectNextHop query (isIpAddress query) ref).1 := by
  unfold mainFlow
  rw [h]

theorem selectNextHop_self_referral (query : List Char) (isIpAddr : Bool)
    (r : Referral) (hsrv : lowerStr r.server = lowerStr IANA_WHOIS_SERVER) :
    selectNextHop query isIpAddr (some r) = (none, authoritativeNote query) := by
  have hne : r.server ≠ [] := by
    intro he
    rw [he] at hsrv
    exact absurd hsrv (by decide)
  simp only [selectNextHop]
  rw [if_pos hne, if_neg (not_not_intro hsrv)]

/-- **C4.** For every IPv4-literal input whose IANA response parses to a
referral whose server is the IANA hostname itself, the handler issues no
second WHOIS query: the only query is the IANA one, and the report ends with
the authoritative-response note instead of a next-hop block. -/
theorem handler_iana_self_referral (query d : List Char) (net : NetOracle)
    (r : Referral)
    (hip : isIpAddress query = true)
    (hnet : net IANA_WHOIS_SERVER query = Except.ok d)
    (href : parseReferral d = some r)
    (hsrv : lowerStr r.server = lowerStr IANA_WHOIS_SERVER) :
    (whoisHandler "GET".data (some query) net).queries = [(IANA_WHOIS_SERVER, query)] ∧
    (whoisHandler "GET".data (some query) net).report
      = reportHeader query ++ ianaResponseBlock d ++ authoritativeNote query ∧
    (whoisHandler "GET".data (some query) net).status = 200 := by
  have hq : query ≠ [] := by
    rintro rfl
    exact absurd hip (by decide)
  rw [whoisHandler_get query net hq,
      mainFlow_eq query net (reportHeader query ++ ianaResponseBlock d)
        (parseReferral d) [(IANA_WHOIS_SERVER, query)]
        (by rw [hip]; exact ianaPhase_ip_ok query d net hnet),
      href, hip, selectNextHop_self_referral query true r hsrv]
  simp [secondHopPhase]

/-- Witness for C4: `8.8.8.8` with an IANA response of
`whois: whois.iana.org` yields exactly one query and the authoritative
note. -/
theorem handler_iana_self_referral_witness :
    (whoisHandler "GET".data (some "8.8.8.8".data)
        (fun _ _ => Except.ok "whois: whois.iana.org".data)).queries
      = [(IANA_WHOIS_SERVER, "8.8.8.8".data)] ∧
    (whoisHandler "GET".data (some "8.8.8.8".data)
        (fun _ _ => Except.ok "whois: whois.iana.org".data)).report
      = reportHeader "8.8.8.8".data ++
        ianaResponseBlock "whois: whois.iana.org".data ++
        authoritativeNote "8.8.8.8".data ∧
    (whoisHandler "GET".data (some "8.8.8.8".data)
        (fun _ _ => Except.ok "whois: whois.iana.org".data)).status = 200 :=
  handler_iana_self_referral "8.8.8.8".data "whois: whois.iana.org".data
    (fun _ _ => Except.ok "whois: whois.iana.org".data)
    ⟨"IANA".data, "whois.iana.org".data⟩
    (by decide) rfl (by decide) (by decide)

theorem selectNextHop_none_nonIp_suffix (query : List Char)
    (hc : (".com".data.isSuffixOf (lowerStr query) ||
           ".net".data.isSuffixOf (lowerStr query)) = true) :
    selectNextHop query false none
      = (some ("whois.verisign-grs.com".data, "Verisign (.com/.net)".data), []) := by
  simp [selectNextHop, selectNextHopChain, hc]

theorem selectNextHop_none_nonIp_noSuffix (query : List Char)
    (hc : (".com".data.isSuffixOf (lowerStr query) ||
           ".net".data.isSuffixOf (lowerStr query)) = false) :
    selectNextHop query false none
      = (some ("whois.ripe.net".data, "RIPE NCC (Default for non-IP)".data),
         nonIpFallbackNote query) := by
  simp [selectNextHop, selectNextHopChain, hc]

theorem selectNextHop_none_ip (query : List Char) :
    selectNextHop query true none
      = (some ("whois.ripe.net".data, "RIPE NCC (Default/Fallback)".data),
         ipFallbackNote query) := by
  simp [selectNextHop, selectNextHopChain]

/-! ## Lemmas about the dotted-quad classifier -/

theorem splitOnDot_no_dot (a : List Char) (h : '.' ∉ a) : splitOnDot a = [a] := by
  induction a with
  | nil => rfl
  | cons c a ih =>
      rw [List.mem_cons] at h
      push_neg at h
      obtain ⟨h1, h2⟩ := h
      simp [splitOnDot, Ne.symm h1, ih h2]

theorem splitOnDot_append (a rest : List Char) (h : '.' ∉ a) :
    splitOnDot (a ++ '.' :: rest) = a :: splitOnDot rest := by
  induction a with
  | nil => simp [splitOnDot]
  | cons c a ih =>
      rw [List.mem_cons] at h
      push_neg at h
      obtain ⟨h1, h2⟩ := h
      simp only [List.cons_append, splitOnDot, List.append_eq]
      rw [if_neg (Ne.symm h1), ih h2]

theorem isOctet_no_dot (s : List Char) (h : isOctet s = true) : '.' ∉ s := by
  intro hm
  simp only [isOctet, Bool.and_eq_true, List.all_eq_true] at h
  exact absurd (h.2 '.' hm) (by decide)

theorem isIpAddress_of_octets (a b c d : List Char) (ha : isOctet a = true)
    (hb : isOctet b = true) (hc : isOctet c = true) (hd : isOctet d = true) :
    isIpAddress (a ++ ".".data ++ b ++ ".".data ++ c ++ ".".data ++ d) = true := by
  have hdot : ".".data = ['.'] := by decide
  have h1 : a ++ ".".data ++ b ++ ".".data ++ c ++ ".".data ++ d
      = a ++ '.' :: (b ++ '.' :: (c ++ '.' :: d)) := by
    simp [hdot, List.append_assoc]
  rw [h1]
  unfold isIpAddress
  rw [splitOnDot_append a _ (isOctet_no_dot a ha),
      splitOnDot_append b _ (isOctet_no_dot b hb),
      splitOnDot_append c _ (isOctet_no_dot c hc),
      splitOnDot_no_dot d (isOctet_no_dot d hd)]
  simp [ha, hb, hc, hd]

/-- **C6.** The IANA gate: a non-dotted-quad input never reaches IANA (no
issued query targets the IANA server) and the skip notice is appended to the
report; an input accepted by the dotted-quad test — which accepts every
four-group string of 1-3 digits, with no octet-range validation, including
`999.999.999.999` — triggers the IANA query as the first network call. -/
theorem handler_ipv4_gate :
    (∀ (query : List Char) (net : NetOracle), query ≠ [] →
      isIpAddress query = false →
      (∀ p ∈ (whoisHandler "GET".data (some query) net).queries,
          p.1 ≠ IANA_WHOIS_SERVER) ∧
      skipIanaNote query <:+: (whoisHandler "GET".data (some query) net).report) ∧
    (∀ (query : List Char) (net : NetOracle), isIpAddress query = true →
      (((whoisHandler "GET".data (some query) net).queries.map Prod.fst)).head?
        = some IANA_WHOIS_SERVER) ∧
    (∀ a b c d : List Char, isOctet a = true → isOctet b = true →
      isOctet c = true → isOctet d = true →
      isIpAddress (a ++ ".".data ++ b ++ ".".data ++ c ++ ".".data ++ d) = true) ∧
    isIpAddress "999.999.999.999".data = true := by
  refine ⟨?_, ?_, isIpAddress_of_octets, by decide⟩
  · intro query net hq hip
    rw [whoisHandler_get query net hq,
        mainFlow_eq query net (reportHeader query ++ skipIanaNote query) none []
          (by rw [hip]; exact ianaPhase_nonIp query net), hip]
    by_cases hc : (".com".data.isSuffixOf (lowerStr query) ||
        ".net".data.isSuffixOf (lowerStr query)) = true
    · rw [selectNextHop_none_nonIp_suffix query hc]
      constructor
      · intro p hp
        rw [secondHopPhase_queries] at hp
        simp only [List.nil_append, List.mem_singleton] at hp
        rw [hp]
        exact (by decide : ("whois.verisign-grs.com".data : List Char) ≠ IANA_WHOIS_SERVER)
      · obtain ⟨tail, htail⟩ := secondHopPhase_report_extends query net
          (reportHeader query ++ skipIanaNote query ++
            (some ("whois.verisign-grs.com".data, "Verisign (.com/.net)".data),
              ([] : List Char)).2)
          [] none
          (some ("whois.verisign-grs.com".data, "Verisign (.com/.net)".data),
            ([] : List Char)).1
        rw [htail]
        exact ⟨reportHeader query, [] ++ tail, by simp [List.append_assoc]⟩
    · rw [selectNextHop_none_nonIp_noSuffix query (Bool.not_eq_true _ ▸ hc)]
      constructor
      · intro p hp
        rw [secondHopPhase_queries] at hp
        simp only [List.nil_append, List.mem_singleton] at hp
        rw [hp]
        exact (by decide : ("whois.ripe.net".data : List Char) ≠ IANA_WHOIS_SERVER)
      · obtain ⟨tail, htail⟩ := secondHopPhase_report_extends query net
          (reportHeader query ++ skipIanaNote query ++
            (some ("whois.ripe.net".data, "RIPE NCC (Default for non-IP)".data),
              nonIpFallbackNote query).2)
          [] none
          (some ("whois.ripe.net".data, "RIPE NCC (Default for non-IP)".data),
            nonIpFallbackNote query).1
        rw [htail]
        exact ⟨reportHeader query, nonIpFallbackNote query ++ tail,
          by simp [List.append_assoc]⟩
  · intro query net hip
    have hq : query ≠ [] := by
      rintro rfl
      exact absurd hip (by decide)
    rw [whoisHandler_get query net hq]
    rcases hnet : net IANA_WHOIS_SERVER query with msg | d
    · rw [mainFlow_eq query net (reportHeader query ++ ianaErrorBlock msg) none
            [(IANA_WHOIS_SERVER, query)]
            (by rw [hip]; exact ianaPhase_ip_error query msg net hnet),
          secondHopPhase_queries]
      simp
    · rw [mainFlow_eq query net (reportHeader query ++ ianaResponseBlock d)
            (parseReferral d) [(IANA_WHOIS_SERVER, query)]
            (by rw [hip]; exact ianaPhase_ip_ok query d net hnet),
          secondHopPhase_queries]
      simp

/-- Witness for C6: `example.org` (not a dotted quad) never queries IANA and
the skip notice appears; `8.8.8.8` queries IANA first; `999.999.999.999` is
built from four 3-digit groups and accepted. -/
theorem handler_ipv4_gate_witness :
    (∀ p ∈ (whoisHandler "GET".data (some "example.org".data)
        (fun _ _ => Except.ok "D".data)).queries, p.1 ≠ IANA_WHOIS_SERVER) ∧
    skipIanaNote "example.org".data <:+:
      (whoisHandler "GET".data (some "example.org".data)
        (fun _ _ => Except.ok "D".data)).report ∧
    (((whoisHandler "GET".data (some "8.8.8.8".data)
        (fun _ _ => Except.ok "D".data)).queries.map Prod.fst)).head?
      = some IANA_WHOIS_SERVER ∧
    isIpAddress ("999".data ++ ".".data ++ "999".data ++ ".".data ++
      "999".data ++ ".".data ++ "999".data) = true :=
  ⟨(handler_ipv4_gate.1 "example.org".data (fun _ _ => Except.ok "D".data)
      (by decide) (by decide)).1,
   (handler_ipv4_gate.1 "example.org".data (fun _ _ => Except.ok "D".data)
      (by decide) (by decide)).2,
   handler_ipv4_gate.2.1 "8.8.8.8".data (fun _ _ => Except.ok "D".data) (by decide),
   handler_ipv4_gate.2.2.1 "999".data "999".data "999".data "999".data
     (by decide) (by decide) (by decide) (by decide)⟩

/-- **C7.** Next-hop selection without a usable referral: a non-IPv4 input
ending in `.com` or `.net` (case-insensitively) is sent to the Verisign
registry server; a non-IPv4 input without that suffix, or an IPv4 input whose
IANA phase produced no referral, is sent to the fixed default
`whois.ripe.net`, with a note in the report disclosing the fallback. -/
theorem handler_next_hop_fallback :
    (∀ (query : List Char) (net : NetOracle), query ≠ [] →
      isIpAddress query = false →
      (".com".data.isSuffixOf (lowerStr query) ||
        ".net".data.isSuffixOf (lowerStr query)) = true →
      (whoisHandler "GET".data (some query) net).queries
        = [("whois.verisign-grs.com".data, query)]) ∧
    (∀ (query : List Char) (net : NetOracle), query ≠ [] →
      isIpAddress query = false →
      (".com".data.isSuffixOf (lowerStr query) ||
        ".net".data.isSuffixOf (lowerStr query)) = false →
      (whoisHandler "GET".data (some query) net).queries
        = [("whois.ripe.net".data, query)] ∧
      nonIpFallbackNote query <:+:
        (whoisHandler "GET".data (some query) net).report) ∧
    (∀ (query : List Char) (net : NetOracle), isIpAddress query = true →
      (whoisHandler "GET".data (some query) net).referral = none →
      (whoisHandler "GET".data (some query) net).queries
        = [(IANA_WHOIS_SERVER, query), ("whois.ripe.net".data, query)] ∧
      ipFallbackNote query <:+:
        (whoisHandler "GET".data (some query) net).report) := by
  refine ⟨?_, ?_, ?_⟩
  · intro query net hq hip hc
    rw [whoisHandler_get query net hq,
        mainFlow_eq query net (reportHeader query ++ skipIanaNote query) none []
          (by rw [hip]; exact ianaPhase_nonIp query net), hip,
        selectNextHop_none_nonIp_suffix query hc, secondHopPhase_queries]
    simp
  · intro query net hq hip hc
    rw [whoisHandler_get query net hq,
        mainFlow_eq query net (reportHeader query ++ skipIanaNote query) none []
          (by rw [hip]; exact ianaPhase_nonIp query net), hip,
        selectNextHop_none_nonIp_noSuffix query hc]
    constructor
    · rw [secondHopPhase_queries]
      simp
    · obtain ⟨tail, htail⟩ := secondHopPhase_report_extends query net
        (reportHeader query ++ skipIanaNote query ++
          (some ("whois.ripe.net".data, "RIPE NCC (Default for non-IP)".data),
            nonIpFallbackNote query).2)
        [] none
        (some ("whois.ripe.net".data, "RIPE NCC (Default for non-IP)".data),
          nonIpFallbackNote query).1
      rw [htail]
      exact ⟨reportHeader query ++ skipIanaNote query, tail,
        by simp [List.append_assoc]⟩
  · intro query net hip href
    have hq : query ≠ [] := by
      rintro rfl
      exact absurd hip (by decide)
    rw [whoisHandler_get query net hq] at href ⊢
    rcases hnet : net IANA_WHOIS_SERVER query with msg | d
    · rw [mainFlow_eq query net (reportHeader query ++ ianaErrorBlock msg) none
            [(IANA_WHOIS_SERVER, query)]
            (by rw [hip]; exact ianaPhase_ip_error query msg net hnet), hip,
          selectNextHop_none_ip query]
      constructor
      · rw [secondHopPhase_queries]
        simp
      · obtain ⟨tail, htail⟩ := secondHopPhase_report_extends query net
          (reportHeader query ++ ianaErrorBlock msg ++
            (some ("whois.ripe.net".data, "RIPE NCC (Default/Fallback)".data),
              ipFallbackNote query).2)
          [(IANA_WHOIS_SERVER, query)] none
          (some ("whois.ripe.net".data, "RIPE NCC (Default/Fallback)".data),
            ipFallbackNote query).1
        rw [htail]
        exact ⟨reportHeader query ++ ianaErrorBlock msg, tail,
          by simp [List.append_assoc]⟩
    · rw [mainFlow_eq query net (reportHeader query ++ ianaResponseBlock d)
            (parseReferral d) [(IANA_WHOIS_SERVER, query)]
            (by rw [hip]; exact ianaPhase_ip_ok query d net hnet), hip] at href ⊢
      rw [secondHopPhase_referral] at href
      rw [href, selectNextHop_none_ip query]
      constructor
      · rw [secondHopPhase_queries]
        simp
      · obtain ⟨tail, htail⟩ := secondHopPhase_report_extends query net
          (reportHeader query ++ ianaResponseBlock d ++
            (some ("whois.ripe.net".data, "RIPE NCC (Default/Fallback)".data),
              ipFallbackNote query).2)
          [(IANA_WHOIS_SERVER, query)] none
          (some ("whois.ripe.net".data, "RIPE NCC (Default/Fallback)".data),
            ipFallbackNote query).1
        rw [htail]
        exact ⟨reportHeader query ++ ianaResponseBlock d, tail,
          by simp [List.append_assoc]⟩

/-- Witness for C7: `Example.COM` goes to Verisign; `example.org` goes to
RIPE with the disclosure note; `10.0.0.1` whose IANA response has no referral
goes to IANA then RIPE with the fallback note. -/
theorem handler_next_hop_fallback_witness :
    (whoisHandler "GET".data (some "Example.COM".data)
        (fun _ _ => Except.ok "D".data)).queries
      = [("whois.verisign-grs.com".data, "Example.COM".data)] ∧
    (whoisHandler "GET".data (some "example.org".data)
        (fun _ _ => Except.ok "D".data)).queries
      = [("whois.ripe.net".data, "example.org".data)] ∧
    (whoisHandler "GET".data (some "10.0.0.1".data)
        (fun _ _ => Except.ok "no referral here".data)).queries
      = [(IANA_WHOIS_SERVER, "10.0.0.1".data),
         ("whois.ripe.net".data, "10.0.0.1".data)] ∧
    ipFallbackNote "10.0.0.1".data <:+:
      (whoisHandler "GET".data (some "10.0.0.1".data)
        (fun _ _ => Except.ok "no referral here".data)).report :=
  ⟨handler_next_hop_fallback.1 "Example.COM".data (fun _ _ => Except.ok "D".data)
      (by decide) (by decide) (by decide),
   (handler_next_hop_fallback.2.1 "example.org".data (fun _ _ => Except.ok "D".data)
      (by decide) (by decide) (by decide)).1,
   (handler_next_hop_fallback.2.2 "10.0.0.1".data
      (fun _ _ => Except.ok "no referral here".data) (by decide) (by decide)).1,
   (handler_next_hop_fallback.2.2 "10.0.0.1".data
      (fun _ _ => Except.ok "no referral here".data) (by decide) (by decide)).2⟩

theorem selectNextHopChain_hop_ne_iana (query : List Char) (b hbr : Bool)
    (s n : List Char)
    (h : (selectNextHopChain query b hbr).1 = some (s, n)) :
    s ≠ IANA_WHOIS_SERVER := by
  cases b
  · by_cases hc : (".com".data.isSuffixOf (lowerStr query) ||
        ".net".data.isSuffixOf (lowerStr query)) = true
    · simp [selectNextHopChain, hc] at h
      obtain ⟨h1, -⟩ := h
      subst h1
      decide
    · rw [Bool.not_eq_true] at hc
      simp [selectNextHopChain, hc] at h
      obtain ⟨h1, -⟩ := h
      subst h1
      decide
  · cases hbr
    · simp [selectNextHopChain] at h
      obtain ⟨h1, -⟩ := h
      subst h1
      decide
    · simp [selectNextHopChain] at h

theorem selectNextHop_hop_ne_iana (query : List Char) (b : Bool)
    (ref : Option Referral) (s n : List Char)
    (h : (selectNextHop query b ref).1 = some (s, n)) :
    s ≠ IANA_WHOIS_SERVER := by
  rcases ref with _ | r
  · exact selectNextHopChain_hop_ne_iana query b false s n
      (by simpa [selectNextHop] using h)
  · simp only [selectNextHop] at h
    by_cases hs : r.server ≠ []
    · rw [if_pos hs] at h
      by_cases hl : lowerStr r.server ≠ lowerStr IANA_WHOIS_SERVER
      · rw [if_pos hl] at h
        simp only [Option.some.injEq, Prod.mk.injEq] at h
        rw [← h.1]
        intro he
        rw [he] at hl
        exact hl rfl
      · rw [if_neg hl] at h
        simp at h
    · rw [if_neg hs] at h
      exact selectNextHopChain_hop_ne_iana query b true s n h

/-- **C8.** Per request the handler issues at most two WHOIS queries; the
IANA server is queried exactly once for dotted-quad inputs and never
otherwise; the queried servers are pairwise distinct, so no failed hop is
ever retried. -/
theorem handler_query_budget (query : List Char) (net : NetOracle)
    (hq : query ≠ []) :
    (whoisHandler "GET".data (some query) net).queries.length ≤ 2 ∧
    (isIpAddress query = true →
      ((whoisHandler "GET".data (some query) net).queries.map Prod.fst).count
        IANA_WHOIS_SERVER = 1) ∧
    (isIpAddress query = false →
      ((whoisHandler "GET".data (some query) net).queries.map Prod.fst).count
        IANA_WHOIS_SERVER = 0) ∧
    ((whoisHandler "GET".data (some query) net).queries.map Prod.fst).Nodup := by
  rw [whoisHandler_get query net hq]
  cases hip : isIpAddress query
  · rw [mainFlow_eq query net (reportHeader query ++ skipIanaNote query) none []
        (by rw [hip]; exact ianaPhase_nonIp query net), hip]
    by_cases hc : (".com".data.isSuffixOf (lowerStr query) ||
        ".net".data.isSuffixOf (lowerStr query)) = true
    · rw [selectNextHop_none_nonIp_suffix query hc, secondHopPhase_queries]
      refine ⟨by simp, by simp, fun _ => ?_, by simp⟩
      simp [List.count_cons]
      decide
    · rw [selectNextHop_none_nonIp_noSuffix query (Bool.not_eq_true _ ▸ hc),
          secondHopPhase_queries]
      refine ⟨by simp, by simp, fun _ => ?_, by simp⟩
      simp [List.count_cons]
      decide
  · rcases hnet : net IANA_WHOIS_SERVER query with msg | d
    · rw [mainFlow_eq query net (reportHeader query ++ ianaErrorBlock msg) none
            [(IANA_WHOIS_SERVER, query)]
            (by rw [hip]; exact ianaPhase_ip_error query msg net hnet), hip,
          selectNextHop_none_ip query, secondHopPhase_queries]
      refine ⟨by simp, fun _ => ?_, by simp, ?_⟩
      · simp [List.count_cons]
        decide
      · simp [List.nodup_cons]
        decide
    · rw [mainFlow_eq query net (reportHeader query ++ ianaResponseBlock d)
            (parseReferral d) [(IANA_WHOIS_SERVER, query)]
            (by rw [hip]; exact ianaPhase_ip_ok query d net hnet), hip,
          secondHopPhase_queries]
      rcases hsel : (selectNextHop query true (parseReferral d)).1 with _ | ⟨s, n⟩
      · refine ⟨by simp, fun _ => by simp, by simp, by simp⟩
      · have hsne : s ≠ IANA_WHOIS_SERVER :=
          selectNextHop_hop_ne_iana query true (parseReferral d) s n hsel
        have hbeq : (s == IANA_WHOIS_SERVER) = false := beq_eq_false_iff_ne.mpr hsne
        refine ⟨by simp, fun _ => ?_, by simp, ?_⟩
        · simp [List.count_cons, hbeq]
        · simp [List.nodup_cons]
          exact fun he => hsne he.symm

/-- Witness for C8: on `8.8.8.8` with an ARIN referral the handler queries
IANA once and ARIN once, two distinct servers. -/
theorem handler_query_budget_witness :
    (whoisHandler "GET".data (some "8.8.8.8".data) (fun server _ =>
        if server = IANA_WHOIS_SERVER then Except.ok "refer: whois.arin.net".data
        else Except.ok "ARIN DATA".data)).queries.length ≤ 2 ∧
    ((whoisHandler "GET".data (some "8.8.8.8".data) (fun server _ =>
        if server = IANA_WHOIS_SERVER then Except.ok "refer: whois.arin.net".data
        else Except.ok "ARIN DATA".data)).queries.map Prod.fst).count
      IANA_WHOIS_SERVER = 1 ∧
    ((whoisHandler "GET".data (some "8.8.8.8".data) (fun server _ =>
        if server = IANA_WHOIS_SERVER then Except.ok "refer: whois.arin.net".data
        else Except.ok "ARIN DATA".data)).queries.map Prod.fst).Nodup :=
  ⟨(handler_query_budget "8.8.8.8".data (fun server _ =>
        if server = IANA_WHOIS_SERVER then Except.ok "refer: whois.arin.net".data
        else Except.ok "ARIN DATA".data) (by decide)).1,
   (handler_query_budget "8.8.8.8".data (fun server _ =>
        if server = IANA_WHOIS_SERVER then Except.ok "refer: whois.arin.net".data
        else Except.ok "ARIN DATA".data) (by decide)).2.1 (by decide),
   (handler_query_budget "8.8.8.8".data (fun server _ =>
        if server = IANA_WHOIS_SERVER then Except.ok "refer: whois.arin.net".data
        else Except.ok "ARIN DATA".data) (by decide)).2.2.2⟩

theorem ianaResponseBlock_empty :
    ∃ A B, ianaResponseBlock []
      = A ++ "No data or empty response from IANA.".data ++ B :=
  ⟨"\n--- IANA Response (".data ++ IANA_WHOIS_SERVER ++ ") ---\n".data,
   "\n-----------------------------------------\n\n".data,
   by simp [ianaResponseBlock, List.append_assoc]⟩

theorem rirResponseBlock_empty (name server : List Char) :
    ∃ A B, rirResponseBlock name server []
      = A ++ ("No data or empty response from ".data ++ name ++ ".".data) ++ B :=
  ⟨"\n--- Response from ".data ++ name ++ " (".data ++ server ++ ") ---\n".data,
   "\n----------------------------------------------------------------------\n".data,
   by simp [rirResponseBlock, List.append_assoc]⟩

/-- **C10.** A hop that resolves with the empty string is rendered with the
`No data or empty response from ...` placeholder naming the hop, not with an
empty body: the IANA block on an empty IANA response, and the next-hop block
on an empty second-hop response. -/
theorem handler_empty_response_placeholder :
    (∀ (query : List Char) (net : NetOracle), isIpAddress query = true →
      net IANA_WHOIS_SERVER query = Except.ok [] →
      "No data or empty response from IANA.".data <:+:
        (whoisHandler "GET".data (some query) net).report) ∧
    (∀ (query : List Char) (net : NetOracle) (server name : List Char),
      query ≠ [] →
      (selectNextHop query (isIpAddress query)
        (whoisHandler "GET".data (some query) net).referral).1 = some (server, name) →
      net server query = Except.ok [] →
      ("No data or empty response from ".data ++ name ++ ".".data) <:+:
        (whoisHandler "GET".data (some query) net).report) := by
  constructor
  · intro query net hip hnet
    have hq : query ≠ [] := by
      rintro rfl
      exact absurd hip (by decide)
    rw [whoisHandler_get query net hq,
        mainFlow_eq query net (reportHeader query ++ ianaResponseBlock []) none
          [(IANA_WHOIS_SERVER, query)]
          (by rw [hip, ianaPhase_ip_ok query [] net hnet]; simp [parseReferral]),
        hip, selectNextHop_none_ip query]
    obtain ⟨tail, htail⟩ := secondHopPhase_report_extends query net
      (reportHeader query ++ ianaResponseBlock [] ++
        (some ("whois.ripe.net".data, "RIPE NCC (Default/Fallback)".data),
          ipFallbackNote query).2)
      [(IANA_WHOIS_SERVER, query)] none
      (some ("whois.ripe.net".data, "RIPE NCC (Default/Fallback)".data),
        ipFallbackNote query).1
    rw [htail]
    obtain ⟨A, B, hAB⟩ := ianaResponseBlock_empty
    rw [hAB]
    exact ⟨reportHeader query ++ A, B ++ (ipFallbackNote query ++ tail),
      by simp [List.append_assoc]⟩
  · intro query net server name hq hsel hok
    rw [whoisHandler_get query net hq] at hsel ⊢
    unfold mainFlow at hsel ⊢
    rw [secondHopPhase_referral] at hsel
    rw [hsel, secondHopPhase_report_of_ok query net _ _ _ server name [] hok]
    obtain ⟨A, B, hAB⟩ := rirResponseBlock_empty name server
    rw [hAB]
    exact ⟨(ianaPhase query net (isIpAddress query)).1 ++
      (selectNextHop query (isIpAddress query)
        (ianaPhase query net (isIpAddress query)).2.1).2 ++ A, B,
      by simp [List.append_assoc]⟩

/-- Witness for C10: an empty IANA response for `8.8.8.8` yields the IANA
placeholder; an empty ARIN response yields the ARIN placeholder. -/
theorem handler_empty_response_placeholder_witness :
    "No data or empty response from IANA.".data <:+:
      (whoisHandler "GET".data (some "8.8.8.8".data)
        (fun _ _ => Except.ok [])).report ∧
    ("No data or empty response from ".data ++ "ARIN".data ++ ".".data) <:+:
      (whoisHandler "GET".data (some "8.8.8.8".data)
        (fun server _ =>
          if server = IANA_WHOIS_SERVER then Except.ok "refer: whois.arin.net".data
          else Except.ok [])).report :=
  ⟨handler_empty_response_placeholder.1 "8.8.8.8".data (fun _ _ => Except.ok [])
      (by decide) rfl,
   handler_empty_response_placeholder.2 "8.8.8.8".data
      (fun server _ =>
        if server = IANA_WHOIS_SERVER then Except.ok "refer: whois.arin.net".data
        else Except.ok [])
      "whois.arin.net".data "ARIN".data (by decide) (by decide) rfl⟩

/-! ## C5: the referral parser against the claim's description -/

theorem lookupRir_iana_lower :
    lookupRir (lowerStr IANA_WHOIS_SERVER)
      = some ⟨"IANA".data, "whois.iana.org".data⟩ := by decide

/-- Counterexample to C5 as stated: a captured hostname equal to the IANA
server does *not* yield `none` — the `RIR_SERVERS` directory of part_000
contains an `IANA` entry (line 15), so the directory lookup fires first and
returns the canonical pair. -/
theorem parseReferral_iana_counterexample :
    parseReferral "whois: whois.iana.org".data
      = some ⟨"IANA".data, "whois.iana.org".data⟩ ∧
    parseReferral "whois: whois.iana.org".data ≠ none := by
  exact ⟨by decide, by decide⟩

/-- The first capture among the two referral patterns, `whois:` before
`refer:`. -/
def firstReferralCapture (ianaData : List Char) : Option (List Char) :=
  match findCapture "whois:".data ianaData with
  | some cap => some cap
  | none => findCapture "refer:".data ianaData

/-- The amended claim's description of `parseReferral`: scan for `whois:`
before `refer:` (first capture wins), lowercase and trim the captured
hostname, return the canonical directory pair on a case-insensitive
directory match — the directory includes IANA itself, so a hostname equal to
the IANA server yields `{IANA, whois.iana.org}` — return
`{name := hostname, server := hostname}` for an unknown hostname, and return
`none` only when no pattern yields a hostname. -/
def parseReferralSpecFn (ianaData : List Char) : Option Referral :=
  if ianaData = [] then none
  else
    match firstReferralCapture ianaData with
    | none => none
    | some cap =>
        let host := lowerStr (jsTrim cap)
        match lookupRir host with
        | some r => some r
        | none => some ⟨host, host⟩

theorem lookupRir_none_ne_iana (host : List Char) (h : lookupRir host = none) :
    host ≠ lowerStr IANA_WHOIS_SERVER := by
  intro he
  rw [he, lookupRir_iana_lower] at h
  cases h

/-- **C5 (amended).** `parseReferral` is exactly the amended description:
first capture wins (`whois:` before `refer:`), a directory hit (including
the IANA entry) gives the canonical pair, an unknown hostname refers to
itself, and only an absent capture gives `none`; the explicit
self-referral guard is unreachable because the directory contains IANA. -/
theorem parseReferral_amended (d : List Char) :
    parseReferral d = parseReferralSpecFn d := by
  unfold parseReferral parseReferralSpecFn firstReferralCapture
  by_cases hd : d = []
  · simp [hd]
  · rw [if_neg hd, if_neg hd]
    cases h1 : findCapture "whois:".data d with
    | some cap =>
        simp only [tryPattern, h1]
        cases h2 : lookupRir (lowerStr (jsTrim cap)) with
        | some r => simp
        | none =>
            have hne := lookupRir_none_ne_iana _ h2
            simp [hne]
    | none =>
        simp only [tryPattern, h1]
        cases h3 : findCapture "refer:".data d with
        | some cap =>
            simp only [h3]
            cases h2 : lookupRir (lowerStr (jsTrim cap)) with
            | some r => simp
            | none =>
                have hne := lookupRir_none_ne_iana _ h2
                simp [hne]
        | none => simp

/-! ## C9: the top-level catch block -/

theorem dropWhile_append_of_ne_nil (p : Char → Bool) (l₁ l₂ : List Char)
    (h : (l₁.dropWhile p).isEmpty = false) :
    (l₁ ++ l₂).dropWhile p = l₁.dropWhile p ++ l₂ := by
  simp [List.dropWhile_append, h]

theorem jsTrim_append (x y : List Char)
    (hx : x.dropWhile isJsSpace = x) (hne : x ≠ [])
    (hy : ((y.reverse).dropWhile isJsSpace).isEmpty = false) :
    jsTrim (x ++ y) = x ++ ((y.reverse).dropWhile isJsSpace).reverse := by
  have h1 : (x.dropWhile isJsSpace).isEmpty = false := by
    rw [hx]
    cases x
    · exact absurd rfl hne
    · rfl
  unfold jsTrim
  rw [dropWhile_append_of_ne_nil isJsSpace x y h1, hx, List.reverse_append,
      dropWhile_append_of_ne_nil isJsSpace y.reverse x.reverse hy,
      List.reverse_append, List.reverse_reverse]

theorem unexpectedErrorBlock_trimRight (msg : List Char) :
    (((unexpectedErrorBlock msg).reverse).dropWhile isJsSpace).isEmpty = false := by
  have hS : ((("\n--------------------------------\n".data : List Char)).reverse.dropWhile
      isJsSpace).isEmpty = false := by decide
  unfold unexpectedErrorBlock
  rw [List.reverse_append, dropWhile_append_of_ne_nil isJsSpace _ _ hS]
  cases hA : ("\n--------------------------------\n".data : List Char).reverse.dropWhile
      isJsSpace
  · rw [hA] at hS
    exact absurd hS (by simp)
  · rfl

/-- **C9.** The top-level catch block (part_000 lines 189-194): for any
partial report accumulated before an unexpected exception (every report the
handler builds starts with the non-whitespace header `WHOIS Lookup for:`),
the response has status 500 and its plain-text body contains the entire
partial report, not just the error message. -/
theorem unexpectedError_includes_partial_report (finalReport msg : List Char)
    (c : Char) (rest : List Char) (hr : finalReport = c :: rest)
    (hc : isJsSpace c = false) :
    (unexpectedErrorResponse finalReport msg).1 = 500 ∧
    finalReport <:+: (unexpectedErrorResponse finalReport msg).2 := by
  refine ⟨rfl, ?_⟩
  have hx : finalReport.dropWhile isJsSpace = finalReport := by
    rw [hr, List.dropWhile_cons, hc]
    simp
  have hne : finalReport ≠ [] := by
    rw [hr]
    simp
  unfold unexpectedErrorResponse
  rw [jsTrim_append finalReport (unexpectedErrorBlock msg) hx hne
      (unexpectedErrorBlock_trimRight msg)]
  exact ⟨[], ((unexpectedErrorBlock msg).reverse.dropWhile isJsSpace).reverse ++
    "\n\nInternal server error processing WHOIS request.".data,
    by simp [List.append_assoc]⟩

/-- Witness for C9: a concrete partial report survives into the 500 body. -/
theorem unexpectedError_includes_partial_report_witness :
    (unexpectedErrorResponse "WHOIS Lookup for: x".data "boom".data).1 = 500 ∧
    "WHOIS Lookup for: x".data <:+:
      (unexpectedErrorResponse "WHOIS Lookup for: x".data "boom".data).2 :=
  unexpectedError_includes_partial_report "WHOIS Lookup for: x".data "boom".data
    'W' "HOIS Lookup for: x".data (by decide) (by decide)

end WhoisProxy
